import Mathlib

/-!
Verification development for the lead-qualification bot.

Shallow embedding of the rule-based classifiers, the LLM response parser,
the follow-up scheduler cycle, and the relevant conversation handlers,
translated from the Python sources under `src/`.  Priority tiers, label
tables and string literals are carried over verbatim.
-/

namespace LeadBot

/-- Lead priority tier (`LeadStatus` in `src/database/models.py`). -/
inductive LeadStatus
  | NEW
  | COLD
  | WARM
  | HOT
deriving DecidableEq, Repr

/-- Priority ranking used for "did the status improve" comparisons
(`status_priority` dict in `src/handlers/conversation.py`). -/
def status_priority : LeadStatus → Nat
  | .NEW => 0
  | .COLD => 1
  | .WARM => 2
  | .HOT => 3

/-- Budget label table (`BUDGET_LABELS` in `src/keyboards/__init__.py`). -/
def BUDGET_LABELS : List (String × String) :=
  [("low", "До 50 000 ₽"),
   ("medium", "50 000 - 150 000 ₽"),
   ("high", "150 000+ ₽"),
   ("unknown", "Пока не знаю")]

/-- Structured-path qualification (`_qualify_lead` in
`src/handlers/conversation.py`): `deadline_type` is the raw callback key
(`urgent` / `soon` / `later`), `budget` is the human-readable label. -/
def qualify_lead (deadline_type : String) (budget : String) : LeadStatus :=
  if deadline_type = "urgent" ∧ (budget = "50 000 - 150 000 ₽" ∨ budget = "150 000+ ₽") then
    .HOT
  else if budget = "150 000+ ₽" ∧ deadline_type ≠ "later" then
    .HOT
  else if deadline_type = "soon" ∨ budget = "50 000 - 150 000 ₽" then
    .WARM
  else if deadline_type = "urgent" then
    .WARM
  else
    .COLD

/-- The structured classification table exactly as the spec words it
(HOT/WARM precedence list); used to compare `qualify_lead` against the
claim. -/
def claimClassify (urgency : String) (budget : String) : LeadStatus :=
  if urgency = "urgent" ∧ (budget = "50 000 - 150 000 ₽" ∨ budget = "150 000+ ₽") then
    .HOT
  else if budget = "150 000+ ₽" ∧ urgency ≠ "later" then
    .HOT
  else if urgency = "soon" ∨ budget = "50 000 - 150 000 ₽" then
    .WARM
  else if urgency = "urgent" then
    .WARM
  else
    .COLD

/-- Boolean substring check: `leadsWith p h` is `p` being an initial
segment of `h` (models Python `str.startswith` on character lists). -/
def leadsWith : List Char → List Char → Bool
  | [], _ => true
  | _ :: _, [] => false
  | a :: p, b :: h => a == b && leadsWith p h

/-- `subListOf p h` models the Python membership test `p in h` on strings:
`p` occurs contiguously somewhere in `h`. -/
def subListOf (p : List Char) : List Char → Bool
  | [] => p.isEmpty
  | c :: t => leadsWith p (c :: t) || subListOf p t

/-- String-level substring containment (Python `pattern in text`). -/
def hasSub (needle hay : String) : Bool :=
  subListOf needle.toList hay.toList

/-- Lower-casing as Python `str.lower` behaves on the alphabets appearing
in this code base: ASCII `A`-`Z` and Cyrillic `А`-`Я` / `Ё`. -/
def pyLowerChar (c : Char) : Char :=
  if 'A' ≤ c ∧ c ≤ 'Z' then Char.ofNat (c.toNat + 32)
  else if c.toNat ≥ 0x410 ∧ c.toNat ≤ 0x42F then Char.ofNat (c.toNat + 0x20)
  else if c.toNat = 0x401 then Char.ofNat 0x451
  else c

/-- Python `str.lower` model. -/
def pyLower (s : String) : String :=
  String.mk (s.toList.map pyLowerChar)

/-- Urgency markers (`urgent_patterns` in `_qualify_lead_custom`). -/
def urgent_patterns : List String :=
  ["срочно", "сегодня", "завтра", "неделя", "этой недел", "asap", "быстро"]

/-- Soon markers (`soon_patterns`). -/
def soon_patterns : List String :=
  ["месяц", "этом месяце", "скоро", "ближайш", "пару недел", "2 недел"]

/-- High-budget markers (`high_budget_patterns`). -/
def high_budget_patterns : List String :=
  ["150", "200", "300", "500", "миллион", "1м", "1 м"]

/-- Medium-budget markers (`medium_budget_patterns`). -/
def medium_budget_patterns : List String :=
  ["50", "60", "70", "80", "90", "100", "сто"]

/-- Whether any urgent marker occurs in the lowercased deadline text. -/
def urgentMatch (deadline_lower : String) : Bool :=
  urgent_patterns.any fun p => hasSub p deadline_lower

/-- Whether any soon marker occurs in the lowercased deadline text. -/
def soonMatch (deadline_lower : String) : Bool :=
  soon_patterns.any fun p => hasSub p deadline_lower

/-- Whether any high-budget marker occurs in the lowercased budget text. -/
def highBudgetMatch (budget_lower : String) : Bool :=
  high_budget_patterns.any fun p => hasSub p budget_lower

/-- Whether any medium-budget marker occurs in the lowercased budget text. -/
def mediumBudgetMatch (budget_lower : String) : Bool :=
  medium_budget_patterns.any fun p => hasSub p budget_lower

/-- Free-text qualification (`_qualify_lead_custom` in
`src/handlers/conversation.py`): case-insensitive substring heuristics
over the deadline and budget descriptions. -/
def qualify_lead_custom (deadline : String) (budget : String) : LeadStatus :=
  let deadline_lower := pyLower deadline
  let budget_lower := pyLower budget
  let is_urgent := urgentMatch deadline_lower
  let is_soon := soonMatch deadline_lower
  let is_high_budget := highBudgetMatch budget_lower
  let is_medium_budget := mediumBudgetMatch budget_lower
  if is_urgent && (is_high_budget || is_medium_budget) then .HOT
  else if is_high_budget && (is_urgent || is_soon) then .HOT
  else if is_soon || is_medium_budget || is_urgent then .WARM
  else .WARM

/-- The free-text classification rule exactly as the spec words it, as a
function of the four marker-presence flags. -/
def claimCustomVerdict (is_urgent is_soon is_high is_medium : Bool) : LeadStatus :=
  if is_urgent && (is_high || is_medium) then .HOT
  else if is_high && (is_urgent || is_soon) then .HOT
  else if is_soon || is_medium || is_urgent then .WARM
  else .WARM

/-! ### JSON model (for `_parse_llm_response` in `src/services/llm.py`)

`Json` and `json_loads` model Python's `json.loads`: a strict JSON
document parser returning `none` exactly where `json.loads` raises
`JSONDecodeError`.  Numeric values are kept as their (signed) integral
part — no claim inspects fractional values. -/

/-- JSON values as produced by `json.loads`. -/
inductive Json
  | null
  | bool (b : Bool)
  | num (n : Int)
  | str (s : String)
  | arr (elems : List Json)
  | obj (fields : List (String × Json))
deriving Repr

/-- JSON insignificant whitespace (space, tab, newline, carriage return). -/
def isJsonWs (c : Char) : Bool :=
  c == ' ' || c == '\t' || c == '\n' || c == '\r'

/-- Drop leading JSON whitespace. -/
def skipWs : List Char → List Char
  | [] => []
  | c :: t => if isJsonWs c then skipWs t else c :: t

/-- Hex digit value, if any. -/
def hexVal (c : Char) : Option Nat :=
  if '0' ≤ c ∧ c ≤ '9' then some (c.toNat - 48)
  else if 'a' ≤ c ∧ c ≤ 'f' then some (c.toNat - 87)
  else if 'A' ≤ c ∧ c ≤ 'F' then some (c.toNat - 55)
  else none

/-- Body of a JSON string literal, after the opening quote: collects
characters until the closing quote, resolving escapes. -/
def parseStringBody (acc : List Char) : List Char → Option (String × List Char)
  | [] => none
  | '"' :: t => some (String.mk acc.reverse, t)
  | '\\' :: e :: t =>
    match e with
    | '"' => parseStringBody ('"' :: acc) t
    | '\\' => parseStringBody ('\\' :: acc) t
    | '/' => parseStringBody ('/' :: acc) t
    | 'b' => parseStringBody (Char.ofNat 8 :: acc) t
    | 'f' => parseStringBody (Char.ofNat 12 :: acc) t
    | 'n' => parseStringBody ('\n' :: acc) t
    | 'r' => parseStringBody ('\r' :: acc) t
    | 't' => parseStringBody ('\t' :: acc) t
    | 'u' =>
      match t with
      | h1 :: h2 :: h3 :: h4 :: t2 =>
        match hexVal h1, hexVal h2, hexVal h3, hexVal h4 with
        | some a, some b, some c, some d =>
          parseStringBody (Char.ofNat (((a * 16 + b) * 16 + c) * 16 + d) :: acc) t2
        | _, _, _, _ => none
      | _ => none
    | _ => none
  | '\\' :: [] => none
  | c :: t => parseStringBody (c :: acc) t

/-- Digits to their numeric value. -/
def digitsToNat (ds : List Char) : Nat :=
  ds.foldl (fun n c => n * 10 + (c.toNat - 48)) 0

/-- A JSON number token (strict grammar: no leading zeros; fraction and
exponent are consumed but only the integral part is retained). -/
def parseNumber (cs : List Char) : Option (Json × List Char) :=
  let (neg, cs1) := match cs with
    | '-' :: t => (true, t)
    | _ => (false, cs)
  let digits := cs1.takeWhile Char.isDigit
  let rest := cs1.dropWhile Char.isDigit
  if digits.isEmpty then none
  else if digits.length > 1 ∧ digits.head? = some '0' then none
  else
    let afterFrac : Option (List Char) := match rest with
      | '.' :: r =>
        let fd := r.takeWhile Char.isDigit
        if fd.isEmpty then none else some (r.dropWhile Char.isDigit)
      | _ => some rest
    match afterFrac with
    | none => none
    | some rest2 =>
      let afterExp : Option (List Char) := match rest2 with
        | 'e' :: r => someExpTail r
        | 'E' :: r => someExpTail r
        | _ => some rest2
      match afterExp with
      | none => none
      | some rest3 =>
        let v : Int := Int.ofNat (digitsToNat digits)
        some (Json.num (if neg then -v else v), rest3)
where
  /-- Exponent digits after `e`/`E` (with optional sign). -/
  someExpTail (r : List Char) : Option (List Char) :=
    let r2 := match r with
      | '+' :: t => t
      | '-' :: t => t
      | _ => r
    let ed := r2.takeWhile Char.isDigit
    if ed.isEmpty then none else some (r2.dropWhile Char.isDigit)

mutual

/-- One JSON value (fuelled recursive descent; the fuel only bounds the
recursion chain and is chosen large enough at the top level). -/
def parseValue : Nat → List Char → Option (Json × List Char)
  | 0, _ => none
  | fuel + 1, cs =>
    match skipWs cs with
    | [] => none
    | 'n' :: 'u' :: 'l' :: 'l' :: t => some (Json.null, t)
    | 't' :: 'r' :: 'u' :: 'e' :: t => some (Json.bool true, t)
    | 'f' :: 'a' :: 'l' :: 's' :: 'e' :: t => some (Json.bool false, t)
    | '"' :: t =>
      match parseStringBody [] t with
      | some (s, r) => some (Json.str s, r)
      | none => none
    | '{' :: t =>
      match skipWs t with
      | '}' :: r => some (Json.obj [], r)
      | r => parseMembers fuel r []
    | '[' :: t =>
      match skipWs t with
      | ']' :: r => some (Json.arr [], r)
      | r => parseElems fuel r []
    | c :: t => parseNumber (c :: t)

/-- Members of a JSON object (after `{`, at least one member). -/
def parseMembers : Nat → List Char → List (String × Json) →
    Option (Json × List Char)
  | 0, _, _ => none
  | fuel + 1, cs, acc =>
    match skipWs cs with
    | '"' :: t =>
      match parseStringBody [] t with
      | none => none
      | some (k, r) =>
        match skipWs r with
        | ':' :: r2 =>
          match parseValue fuel r2 with
          | none => none
          | some (v, r3) =>
            match skipWs r3 with
            | ',' :: r4 => parseMembers fuel r4 (acc ++ [(k, v)])
            | '}' :: r4 => some (Json.obj (acc ++ [(k, v)]), r4)
            | _ => none
        | _ => none
    | _ => none

/-- Elements of a JSON array (after `[`, at least one element). -/
def parseElems : Nat → List Char → List Json → Option (Json × List Char)
  | 0, _, _ => none
  | fuel + 1, cs, acc =>
    match parseValue fuel cs with
    | none => none
    | some (v, r) =>
      match skipWs r with
      | ',' :: r2 => parseElems fuel r2 (acc ++ [v])
      | ']' :: r2 => some (Json.arr (acc ++ [v]), r2)
      | _ => none

end

/-- Model of Python `json.loads`: parse one document and require only
whitespace to remain; `none` models `JSONDecodeError`. -/
def json_loads (s : String) : Option Json :=
  match parseValue (2 * s.length + 4) s.toList with
  | some (v, rest) => if (skipWs rest).isEmpty then some v else none
  | none => none

/-! ### LLM response parsing (`_parse_llm_response` in `src/services/llm.py`) -/

/-- Python `str.strip` whitespace (space, tab, newline, carriage return,
vertical tab, form feed). -/
def isPyWs (c : Char) : Bool :=
  c == ' ' || c == '\t' || c == '\n' || c == '\r' ||
    c == Char.ofNat 11 || c == Char.ofNat 12

/-- Python `str.strip` on a character list. -/
def trimL (l : List Char) : List Char :=
  ((l.dropWhile isPyWs).reverse.dropWhile isPyWs).reverse

/-- Python `str.endswith` on character lists. -/
def endsWithL (p l : List Char) : Bool :=
  leadsWith p.reverse l.reverse

/-- The markdown code-fence stripping prologue of `_parse_llm_response`:
strip, drop a leading ```` ```json ```` (7 chars) or ```` ``` ```` (3
chars), drop a trailing ```` ``` ````, strip again. -/
def stripFenceL (cs : List Char) : List Char :=
  let cleaned := trimL cs
  let cleaned :=
    if leadsWith "```json".toList cleaned then cleaned.drop 7
    else if leadsWith "```".toList cleaned then cleaned.drop 3
    else cleaned
  let cleaned :=
    if endsWithL "```".toList cleaned then cleaned.take (cleaned.length - 3) else cleaned
  trimL cleaned

/-- Fence stripping at the string level. -/
def stripFence (response_text : String) : String :=
  String.mk (stripFenceL response_text.toList)

/-- Python `dict.get` over the decoded object: with duplicate keys,
`json.loads` keeps the last occurrence. -/
def dictGet (fields : List (String × Json)) (key : String) : Option Json :=
  ((fields.filter (fun kv => kv.1 == key)).map (fun kv => kv.2)).getLast?

/-- Upper-casing as Python `str.upper` behaves on ASCII and Cyrillic. -/
def pyUpperChar (c : Char) : Char :=
  if 'a' ≤ c ∧ c ≤ 'z' then Char.ofNat (c.toNat - 32)
  else if c.toNat ≥ 0x430 ∧ c.toNat ≤ 0x44F then Char.ofNat (c.toNat - 0x20)
  else if c.toNat = 0x451 then Char.ofNat 0x401
  else c

/-- Python `str.upper` model. -/
def pyUpper (s : String) : String :=
  String.mk (s.toList.map pyUpperChar)

/-- `LeadStatus[name]` lookup by enumeration member name
(`KeyError` modelled as `none`). -/
def leadStatusFromName : String → Option LeadStatus
  | "NEW" => some .NEW
  | "COLD" => some .COLD
  | "WARM" => some .WARM
  | "HOT" => some .HOT
  | _ => none

/-- The typed decision `_parse_llm_response` returns (`LLMResponse` in
`src/types.py`); `response` is kept as the raw JSON value since Python
returns whatever the decoded object held. -/
structure LLMResponse where
  response : Json
  status : LeadStatus
  action : String
deriving Repr

/-- Exceptions `_parse_llm_response` can let escape (it only catches
`json.JSONDecodeError`). -/
inductive PyError
  | attributeError
  | keyError
deriving Repr, DecidableEq

/-- `_parse_llm_response(response_text, default_status)` from
`src/services/llm.py`: strip markdown fences, `json.loads`; on decode
failure return the raw text with the default tier and action
`"continue"`.  On success Python calls `.get` on the decoded value
(`AttributeError` if it is not an object), `.upper()` on the status value
(`AttributeError` if not a string), validates the action against the
allowed set, and finally indexes `parsed["response"]` (`KeyError` if
absent). -/
def parse_llm_response (response_text : String) (default_status : LeadStatus) :
    Except PyError LLMResponse :=
  let cleaned_text := stripFence response_text
  match json_loads cleaned_text with
  | none =>
    .ok ⟨.str response_text, default_status, "continue"⟩
  | some parsed =>
    match parsed with
    | .obj fields =>
      let statusVal := (dictGet fields "status").getD (.str "NEW")
      match statusVal with
      | .str status_str =>
        let status := (leadStatusFromName (pyUpper status_str)).getD default_status
        let action_value := (dictGet fields "action").getD (.str "continue")
        let action := match action_value with
          | .str a =>
            if a == "continue" || a == "schedule_meeting" || a == "send_materials" then a
            else "continue"
          | _ => "continue"
        match dictGet fields "response" with
        | some r => .ok ⟨r, status, action⟩
        | none => .error .keyError
      | _ => .error .attributeError
    | _ => .error .attributeError

/-! ### Follow-up scheduler (`src/services/scheduler.py`)

The prospect store is modelled as a list of `SLead` records; timestamps
are integer hours on an absolute axis.  `check_follow_ups` runs the three
selection steps exactly as the source does: each step issues a fresh
query (`Lead.filter(...)`) against the store as already mutated by the
previous steps, sends follow-ups, and saves the per-lead updates. -/

/-- The `Lead` fields the scheduler reads and writes. -/
structure SLead where
  id : Nat
  status : LeadStatus
  last_message_at : Int
  follow_up_count : Nat
deriving DecidableEq, Repr

/-- Which of the two reminder texts `send_follow_up` picks: the first
wording when `follow_up_count == 0`, the second otherwise. -/
inductive FollowUpMsg
  | first
  | second
deriving DecidableEq, Repr

/-- `send_follow_up`'s message choice for a lead. -/
def followUpWording (l : SLead) : FollowUpMsg :=
  if l.follow_up_count = 0 then .first else .second

/-- Step-1 filter: `last_message_at < now - 24h`, status in
`{NEW, WARM}`, `follow_up_count == 0`. -/
def matchesFirst (now : Int) (l : SLead) : Bool :=
  decide (l.last_message_at < now - 24) &&
    (l.status == .NEW || l.status == .WARM) && (l.follow_up_count == 0)

/-- Step-2 filter: `last_message_at < now - 48h`, same statuses,
`follow_up_count == 1`. -/
def matchesSecond (now : Int) (l : SLead) : Bool :=
  decide (l.last_message_at < now - 48) &&
    (l.status == .NEW || l.status == .WARM) && (l.follow_up_count == 1)

/-- Step-3 filter: `last_message_at < now - 48h`, same statuses,
`follow_up_count >= 2`. -/
def matchesCold (now : Int) (l : SLead) : Bool :=
  decide (l.last_message_at < now - 48) &&
    (l.status == .NEW || l.status == .WARM) && decide (l.follow_up_count ≥ 2)

/-- Increment `follow_up_count` (the post-send save in each loop body). -/
def bumpCount (l : SLead) : SLead :=
  { l with follow_up_count := l.follow_up_count + 1 }

/-- `check_follow_ups` for one cycle: returns the updated store and the
list of `(lead id, wording)` reminders sent, in send order.  Each of the
three queries runs against the store as left by the previous step. -/
def check_follow_ups (now : Int) (db : List SLead) :
    List SLead × List (Nat × FollowUpMsg) :=
  let sel1 := db.filter (matchesFirst now)
  let sent1 := sel1.map fun l => (l.id, followUpWording l)
  let db1 := db.map fun l => if matchesFirst now l then bumpCount l else l
  let sel2 := db1.filter (matchesSecond now)
  let sent2 := sel2.map fun l => (l.id, followUpWording l)
  let db2 := db1.map fun l => if matchesSecond now l then bumpCount l else l
  let db3 := db2.map fun l => if matchesCold now l then { l with status := .COLD } else l
  (db3, sent1 ++ sent2)

/-! ### Conversation handlers (`src/handlers/conversation.py`,
`src/handlers/meetings.py`) -/

/-- The FSM states (`ConversationState` in `src/handlers/states.py`). -/
inductive ConvState
  | TASK
  | BUDGET
  | DEADLINE
  | ACTION
  | FREE_CHAT
  | TASK_CUSTOM_INPUT
  | BUDGET_CUSTOM_INPUT
  | DEADLINE_CUSTOM_INPUT
  | MEETING_CUSTOM_TIME
deriving DecidableEq, Repr

/-- The aiogram state string for a `ConversationState` member
(`State.state` renders as `"ConversationState:NAME"`). -/
def stateString : ConvState → String
  | .TASK => "ConversationState:TASK"
  | .BUDGET => "ConversationState:BUDGET"
  | .DEADLINE => "ConversationState:DEADLINE"
  | .ACTION => "ConversationState:ACTION"
  | .FREE_CHAT => "ConversationState:FREE_CHAT"
  | .TASK_CUSTOM_INPUT => "ConversationState:TASK_CUSTOM_INPUT"
  | .BUDGET_CUSTOM_INPUT => "ConversationState:BUDGET_CUSTOM_INPUT"
  | .DEADLINE_CUSTOM_INPUT => "ConversationState:DEADLINE_CUSTOM_INPUT"
  | .MEETING_CUSTOM_TIME => "ConversationState:MEETING_CUSTOM_TIME"

/-- `_check_state_and_answer`: `False` (button stale, answered with the
non-committal acknowledgment) when no state is set or the expected
fragment does not occur in the current state string. -/
def check_state_and_answer (current_state : Option String) (expected_state : String) : Bool :=
  match current_state with
  | none => false
  | some s => hasSub expected_state s

/-- Session-plus-database state touched by the meeting-selection handler:
the FSM state and the Meeting records created so far (`(lead id, slot
time)`). -/
structure MeetState where
  fsm : Option String
  meetings : List (Nat × Int)
deriving DecidableEq, Repr

/-- `handle_meeting_selection` for a numeric slot callback
`meeting:{lead_id}:{slot_index}`.  Translated control flow: no session
state is consulted; the keyboard removal (`edit_reply_markup`) is an
external transport effect modelled as always succeeding; an existing
lead and a valid slot index create a `Meeting` and set the FSM state to
`FREE_CHAT`.  `slots` stands for `_generate_meeting_slots()` (its content
depends on the wall clock). -/
def handle_meeting_selection (slots : List Int) (lead_exists : Bool) (lead_id : Nat)
    (slot_index : Nat) (s : MeetState) : MeetState :=
  if ¬lead_exists then s
  else
    match slots.get? slot_index with
    | none => s
    | some t =>
      { fsm := some (stateString .FREE_CHAT), meetings := s.meetings ++ [(lead_id, t)] }

/-- What the `schedule_meeting` branch of `handle_action_callback`
produces: the FSM state afterwards, the reply text, and whether the
meeting-booking flow (`propose_meeting_times`) is entered. -/
structure ActionResult where
  new_fsm : Option String
  reply : String
  proposes_meeting : Bool
deriving DecidableEq, Repr

/-- The soft-decline text sent to COLD leads who press the
schedule-meeting button. -/
def coldDeclineText : String :=
  "Сейчас мы можем прислать материалы для ознакомления.\nКогда будете готовы обсудить детали — напишите!"

/-- The `action == "schedule_meeting"` branch of `handle_action_callback`
(`src/handlers/conversation.py`): a COLD lead gets the soft decline and
`FREE_CHAT`; any other existing lead enters `propose_meeting_times`; a
missing lead record is only acknowledged. -/
def handle_action_schedule_meeting (lead_status : Option LeadStatus)
    (fsm : Option String) : ActionResult :=
  match lead_status with
  | some .COLD => ⟨some (stateString .FREE_CHAT), coldDeclineText, false⟩
  | some _ => ⟨fsm, "Когда удобно созвониться?", true⟩
  | none => ⟨fsm, "", false⟩

/-- Default of `Settings.free_chat_max_questions` (`src/config.py`). -/
def free_chat_max_questions : Nat := 5

/-- The counter logic of `_handle_free_chat_logic`: the stored
`free_chat_count` is incremented on every inbound free-chat message;
after a successful LLM reply, if the new count has reached
`free_chat_max_questions` and the lead is not COLD (`show_meeting`), the
reply is augmented with the meeting-suggestion prompt and the counter is
reset to zero.  Returns `(stored counter afterwards, reply augmented?)`. -/
def freeChatStep (status : LeadStatus) (stored_count : Nat) (max_q : Nat)
    (llm_ok : Bool) : Nat × Bool :=
  let free_chat_count := stored_count + 1
  if llm_ok then
    if free_chat_count ≥ max_q ∧ status ≠ .COLD then (0, true)
    else (free_chat_count, false)
  else (free_chat_count, false)

/-- Outcome of `handle_message_without_state` (the `F.text` fallback in
`src/handlers/conversation.py`) for one inbound text message. -/
structure TextMsgResult where
  final_state : ConvState
  stored_budget : Option String
  stored_deadline : Option String
  routed_free_chat : Bool
  restart_prompt : Bool
deriving DecidableEq, Repr

/-- `handle_message_without_state`: no state → restart prompt and
`TASK`; `BUDGET` → coerced into `handle_budget_custom_input` (stores the
stripped text as the budget, advances to `DEADLINE`); `DEADLINE` →
coerced into `handle_deadline_custom_input` (stores the stripped text as
the deadline, qualifies, advances to `ACTION`); any other state →
`FREE_CHAT` plus `_handle_free_chat_logic`. -/
def handle_message_without_state (current_state : Option ConvState)
    (text : String) : TextMsgResult :=
  match current_state with
  | none => ⟨.TASK, none, none, false, true⟩
  | some .BUDGET => ⟨.DEADLINE, some text.trim, none, false, false⟩
  | some .DEADLINE => ⟨.ACTION, none, some text.trim, false, false⟩
  | some _ => ⟨.FREE_CHAT, none, none, true, false⟩

/-! ## Theorems -/

/-- C1: over every structured input pair (urgency in {urgent, soon,
later}, budget label in the known budget-range set), `_qualify_lead`
agrees with the spec's precedence list (HOT for urgent+medium/high and
for high+non-later; WARM for soon, medium, or remaining urgent; COLD
otherwise), and in particular `classify("urgent", high) = HOT`,
`classify("later", high) ≠ HOT`, `classify("soon", unknown) = WARM`.
Purity is inherent: the embedding is a function of its two arguments
only, as is the Python source, which reads no ambient state. -/
theorem structured_classification_matches_spec :
    ((["urgent", "soon", "later"].all fun u =>
        (BUDGET_LABELS.map fun kv => kv.2).all fun b =>
          qualify_lead u b == claimClassify u b) = true)
    ∧ qualify_lead "urgent" "150 000+ ₽" = .HOT
    ∧ qualify_lead "later" "150 000+ ₽" ≠ .HOT
    ∧ qualify_lead "soon" "Пока не знаю" = .WARM := by
  refine ⟨by decide, by decide, by decide, by decide⟩

/-- The spec-side free-text verdict never yields COLD, for any
combination of marker flags. -/
theorem claimCustomVerdict_ne_cold :
    ∀ u s h m : Bool, claimCustomVerdict u s h m ≠ .COLD := by decide

/-- C6: for every pair of free-text inputs, `_qualify_lead_custom`
computes exactly the spec's rule over the four marker-presence flags
(case-insensitive substring scanning), and never returns COLD. -/
theorem custom_classification_matches_spec_and_never_cold :
    ∀ deadline budget : String,
      qualify_lead_custom deadline budget =
        claimCustomVerdict (urgentMatch (pyLower deadline)) (soonMatch (pyLower deadline))
          (highBudgetMatch (pyLower budget)) (mediumBudgetMatch (pyLower budget))
      ∧ qualify_lead_custom deadline budget ≠ .COLD := by
  intro d b
  exact ⟨rfl, claimCustomVerdict_ne_cold _ _ _ _⟩

/-- C2 counterexample: the parser can raise.  `"42"` decodes as JSON
(the number 42), Python then calls `.get` on it and an `AttributeError`
escapes to the caller — refuting "never raises an exception to its
caller" for arbitrary input. -/
theorem parse_llm_response_raises_on_nonobject_json :
    parse_llm_response "42" .NEW = .error .attributeError := by rfl

/-- C2 (amended): whenever the fence-stripped text does not decode as
JSON, the parser returns the entire raw text verbatim as the reply, the
passed-in default tier, and action `"continue"`, without raising. -/
theorem parse_llm_response_decode_failure_fallback (t : String) (d : LeadStatus)
    (h : json_loads (stripFence t) = none) :
    parse_llm_response t d = .ok ⟨.str t, d, "continue"⟩ := by
  simp only [parse_llm_response, h]

/-- C2 witness: the fallback at the spec's literal input
`"<html>error</html>"` with default WARM. -/
theorem parse_llm_response_decode_failure_fallback_w :
    json_loads (stripFence "<html>error</html>") = none
    ∧ parse_llm_response "<html>error</html>" .WARM =
        .ok ⟨.str "<html>error</html>", .WARM, "continue"⟩ :=
  ⟨rfl, parse_llm_response_decode_failure_fallback "<html>error</html>" .WARM rfl⟩

/-- C7: fence stripping (```` ```json ```` and plain ```` ``` ````),
case-insensitive tier matching with fallback to the default tier on
unmatched values, and action normalization to `"continue"` outside the
allowed set (absent, empty, or unknown), with allowed actions kept. -/
theorem parse_llm_response_normalization :
    parse_llm_response "```json\n\x7b\"response\":\"Ok\",\"status\":\"WARM\",\"action\":\"continue\"\x7d\n```" .NEW =
      .ok ⟨.str "Ok", .WARM, "continue"⟩
    ∧ parse_llm_response "\x7b\"response\":\"x\",\"status\":\"UNKNOWN_TIER\",\"action\":\"zzz\"\x7d" .NEW =
      .ok ⟨.str "x", .NEW, "continue"⟩
    ∧ parse_llm_response "```\n\x7b\"response\":\"Тест\",\"status\":\"hot\",\"action\":\"\"\x7d\n```" .NEW =
      .ok ⟨.str "Тест", .HOT, "continue"⟩
    ∧ parse_llm_response "\x7b\"response\":\"m\",\"status\":\"HOT\",\"action\":\"schedule_meeting\"\x7d" .NEW =
      .ok ⟨.str "m", .HOT, "schedule_meeting"⟩
    ∧ parse_llm_response "\x7b\"response\":\"m\",\"status\":\"HOT\"\x7d" .NEW =
      .ok ⟨.str "m", .HOT, "continue"⟩ :=
  ⟨rfl, rfl, rfl, rfl, rfl⟩

/-- C3: evaluation at the failing input.  One WARM prospect, 49 hours
stale, follow-up count 0 at cycle start: step 1 sends the first reminder
and bumps the count to 1; step 2's fresh query then also selects it
(>48h, count 1) and sends the second reminder; step 3's fresh query then
demotes it to COLD — the same prospect is processed by all three steps
of a single cycle, receiving two reminders and the demotion. -/
theorem scheduler_double_processes_stale_lead :
    check_follow_ups 49 [⟨1, .WARM, 0, 0⟩] =
      ([⟨1, .COLD, 0, 2⟩], [(1, .first), (1, .second)]) := by rfl

/-- C5: evaluation at the failing input, plus the in-window scenario.
A WARM prospect 50 hours stale with count 0 receives TWO reminders and
is demoted to COLD in the same cycle (the claim says exactly one
first-wording reminder and count 1); a prospect 25 hours stale with
count 0 does receive exactly one first reminder with count becoming 1. -/
theorem scheduler_first_step_not_exclusive :
    check_follow_ups 100 [⟨2, .WARM, 50, 0⟩] =
      ([⟨2, .COLD, 50, 2⟩], [(2, .first), (2, .second)])
    ∧ check_follow_ups 100 [⟨3, .WARM, 75, 0⟩] =
      ([⟨3, .WARM, 75, 1⟩], [(3, .first)]) :=
  ⟨rfl, rfl⟩

/-- C4: evaluation at the failing input.  `handle_meeting_selection`
performs no session-state verification (unlike the task/budget/deadline
handlers, which call `_check_state_and_answer`): delivering the same
slot callback `meeting:1:0` twice creates two Meeting records, and the
second press is not answered with the stale-button acknowledgment. -/
theorem meeting_double_press_creates_two_meetings :
    handle_meeting_selection [10, 15, 20, 25] true 1 0
        (handle_meeting_selection [10, 15, 20, 25] true 1 0
          ⟨some (stateString .ACTION), []⟩) =
      ⟨some (stateString .FREE_CHAT), [(1, 10), (1, 10)]⟩ := by rfl

/-- C8: a COLD prospect pressing the schedule-meeting action button is
never granted the booking flow, for any current session state: the
handler replies with the soft decline and moves the session to
FREE_CHAT. -/
theorem cold_lead_schedule_meeting_declined :
    ∀ fsm : Option String,
      handle_action_schedule_meeting (some .COLD) fsm =
        ⟨some (stateString .FREE_CHAT), coldDeclineText, false⟩ :=
  fun _ => rfl

/-- C9 counterexample: a COLD prospect reaching the threshold (stored
count 4, threshold 5) gets neither the meeting-suggestion augmentation
nor the counter reset — the counter is stored as 5, refuting "this holds
for every prospect reaching the threshold". -/
theorem free_chat_threshold_cold_not_reset :
    freeChatStep .COLD 4 free_chat_max_questions true = (5, false)
    ∧ freeChatStep .COLD 4 free_chat_max_questions true ≠ (0, true) := by
  exact ⟨rfl, by decide⟩

/-- C9 (amended): the exchange counter increments on every inbound
free-chat message; for a prospect whose LLM reply succeeds, the reply is
augmented with the meeting-suggestion prompt and the counter resets to
zero exactly when the incremented counter reaches the threshold AND the
prospect is not COLD; otherwise (below threshold, COLD prospect, or LLM
failure) the incremented counter is stored unaugmented. -/
theorem free_chat_counter_amended :
    ∀ (status : LeadStatus) (c m : Nat),
      (freeChatStep status c m true = (0, true) ↔ c + 1 ≥ m ∧ status ≠ .COLD)
      ∧ (¬(c + 1 ≥ m ∧ status ≠ .COLD) → freeChatStep status c m true = (c + 1, false))
      ∧ freeChatStep status c m false = (c + 1, false) := by
  intro status c m
  refine ⟨?_, ?_, rfl⟩
  · by_cases h : c + 1 ≥ m ∧ status ≠ .COLD
    · simp [freeChatStep, h]
    · simp [freeChatStep, h]
  · intro h
    simp [freeChatStep, h]

/-- C9 witness: a WARM prospect at the default threshold is reset and
augmented; below the threshold the counter just increments. -/
theorem free_chat_counter_amended_w :
    freeChatStep .WARM 4 5 true = (0, true) ∧ freeChatStep .WARM 1 5 true = (2, false) :=
  ⟨(free_chat_counter_amended .WARM 4 5).1.mpr (by decide),
   (free_chat_counter_amended .WARM 1 5).2.1 (by decide)⟩

/-- C10: the fallback text dispatcher: no recorded state → restart
prompt and the TASK entry point; BUDGET → coerced into the budget
custom-input handler (text stored as the budget, flow advances to
DEADLINE); DEADLINE → coerced into the deadline custom-input handler
(text stored as the deadline, flow advances to ACTION); the remaining
states without a dedicated text handler (TASK, ACTION) → FREE_CHAT
handling. -/
theorem fallback_dispatch_routes :
    ∀ t : String,
      handle_message_without_state none t = ⟨.TASK, none, none, false, true⟩
      ∧ handle_message_without_state (some .BUDGET) t =
          ⟨.DEADLINE, some t.trim, none, false, false⟩
      ∧ handle_message_without_state (some .DEADLINE) t =
          ⟨.ACTION, none, some t.trim, false, false⟩
      ∧ handle_message_without_state (some .TASK) t =
          ⟨.FREE_CHAT, none, none, true, false⟩
      ∧ handle_message_without_state (some .ACTION) t =
          ⟨.FREE_CHAT, none, none, true, false⟩ :=
  fun _ => ⟨rfl, rfl, rfl, rfl, rfl⟩

end LeadBot
